import Mathlib

/-!
Verification of the video2gif conversion/validation core.

Shallow embedding of the library sources:
- src/types.ts        (error taxonomy, option records, DEFAULTS)
- src/validator.ts    (ParameterValidator)
- src/ffmpeg-loader.ts (FFmpegLoader, FFmpegUtils)
- src/converter.ts    (VideoConverter)

JavaScript numbers are modelled by `JSNum`: NaN, the two infinities, and
finite values as exact rationals.  The validator performs only comparisons
on its inputs, so the IEEE-754 comparison semantics (every comparison with
NaN is false) is captured exactly; finite arithmetic is modelled exactly
over the rationals.
-/

namespace Video2Gif

/-- A JavaScript number: NaN, plus or minus infinity, or a finite value
(modelled as an exact rational). -/
inductive JSNum where
  | nan : JSNum
  | posInf : JSNum
  | negInf : JSNum
  | fin : ℚ → JSNum
deriving DecidableEq, Repr

/-- IEEE-754 strict less-than on JS numbers: any comparison with NaN is false. -/
def jsLt : JSNum → JSNum → Bool
  | .nan, _ => false
  | _, .nan => false
  | .negInf, .negInf => false
  | .negInf, _ => true
  | _, .negInf => false
  | .posInf, _ => false
  | _, .posInf => true
  | .fin a, .fin b => decide (a < b)

/-- IEEE-754 less-or-equal on JS numbers: any comparison with NaN is false. -/
def jsLe (a b : JSNum) : Bool :=
  match a, b with
  | .nan, _ => false
  | _, .nan => false
  | _, _ => jsLt a b || decide (a = b)

/-- IEEE-754 strict greater-than. -/
def jsGt (a b : JSNum) : Bool := jsLt b a

/-- IEEE-754 greater-or-equal. -/
def jsGe (a b : JSNum) : Bool := jsLe b a

/-- JS addition; finite addition is modelled exactly over the rationals. -/
def jsAdd : JSNum → JSNum → JSNum
  | .nan, _ => .nan
  | _, .nan => .nan
  | .posInf, .negInf => .nan
  | .negInf, .posInf => .nan
  | .posInf, _ => .posInf
  | _, .posInf => .posInf
  | .negInf, _ => .negInf
  | _, .negInf => .negInf
  | .fin a, .fin b => .fin (a + b)

/-- JS negation. -/
def jsNeg : JSNum → JSNum
  | .nan => .nan
  | .posInf => .negInf
  | .negInf => .posInf
  | .fin a => .fin (-a)

/-- JS subtraction. -/
def jsSub (a b : JSNum) : JSNum := jsAdd a (jsNeg b)

/-- Math.max: NaN-propagating maximum. -/
def jsMax (a b : JSNum) : JSNum :=
  match a, b with
  | .nan, _ => .nan
  | _, .nan => .nan
  | _, _ => if jsLt a b then b else a

/-- JS truthiness of a number: 0 and NaN are falsy, everything else truthy. -/
def jsTruthy : JSNum → Bool
  | .nan => false
  | .fin q => decide (q ≠ 0)
  | _ => true

/-- Number.isInteger. -/
def jsIsInteger : JSNum → Bool
  | .fin q => decide (q.den = 1)
  | _ => false

/-- Truthiness of an optional number argument (`undefined` is falsy),
as used by checks of the form `if (videoDuration && ...)`. -/
def optTruthy : Option JSNum → Bool
  | none => false
  | some d => jsTruthy d

/-- The error taxonomy of src/types.ts (`Video2GifErrorType`). -/
inductive Video2GifErrorType where
  | INVALID_PARAMETERS
  | UNSUPPORTED_FORMAT
  | FFMPEG_LOAD_FAILED
  | CONVERSION_FAILED
  | MEMORY_LIMIT_EXCEEDED
  | TIMEOUT_EXCEEDED
  | CANCELLED
  | UNKNOWN
deriving DecidableEq, Repr

/-- The conversion options record of src/types.ts (`Video2GifOptions`).
The progress callback is modelled by whether it was supplied and, if so,
whether the supplied value is a function. -/
structure Video2GifOptions where
  startTime : JSNum
  duration : JSNum
  fps : Option JSNum
  scale : Option JSNum
  onProgress : Option Bool
deriving DecidableEq, Repr

/-- An input video payload (File, Blob or ArrayBuffer): only its byte size
matters to the validator.  `Option VideoFile` models a possibly absent
(null or undefined) payload. -/
structure VideoFile where
  size : ℕ
deriving DecidableEq, Repr

/-- src/validator.ts, `validateStartTime` (lines 55-70).  The
`typeof startTime` guard never fires because `JSNum`
models a value that is already a JS number. -/
def validateStartTime (startTime : JSNum) (videoDuration : Option JSNum) :
    Except Video2GifErrorType Unit :=
  if jsLt startTime (.fin 0) then .error .INVALID_PARAMETERS
  else
    match videoDuration with
    | some d =>
        if jsTruthy d && jsGe startTime d then .error .INVALID_PARAMETERS
        else .ok ()
    | none => .ok ()

/-- src/validator.ts, `validateDuration` (lines 75-97).  When the clip
overruns the known video duration the source only emits a `console.warn`
carrying the clamped value `Math.max(0.1, videoDuration - startTime)` and
returns normally; the warning value is the `some` payload of the result. -/
def validateDuration (duration startTime : JSNum) (videoDuration : Option JSNum) :
    Except Video2GifErrorType (Option JSNum) :=
  if jsLe duration (.fin 0) then .error .INVALID_PARAMETERS
  else
    match videoDuration with
    | some d =>
        if jsTruthy d && jsGt (jsAdd startTime duration) d then
          .ok (some (jsMax (.fin (1/10)) (jsSub d startTime)))
        else .ok none
    | none => .ok none

/-- src/validator.ts, `validateFps` (lines 102-110). -/
def validateFps (fps : JSNum) : Except Video2GifErrorType Unit :=
  if jsLt fps (.fin 1) || jsGt fps (.fin 30) then .error .INVALID_PARAMETERS
  else .ok ()

/-- src/validator.ts, `validateScale` (lines 115-127). -/
def validateScale (scale : JSNum) : Except Video2GifErrorType Unit :=
  if jsLe scale (.fin 0) then .error .INVALID_PARAMETERS
  else if !jsIsInteger scale then .error .INVALID_PARAMETERS
  else .ok ()

/-- src/validator.ts, `validateOnProgress` (lines 132-136): the supplied
callback must be of function type. -/
def validateOnProgress (isFunction : Bool) : Except Video2GifErrorType Unit :=
  if !isFunction then .error .INVALID_PARAMETERS else .ok ()

/-- The 1 GiB file-size ceiling of src/validator.ts line 150. -/
def maxFileSize : ℕ := 1024 * 1024 * 1024

/-- src/validator.ts, `validateVideoFile` (lines 141-167). -/
def validateVideoFile (videoFile : Option VideoFile) : Except Video2GifErrorType Unit :=
  match videoFile with
  | none => .error .INVALID_PARAMETERS
  | some f => if f.size > maxFileSize then .error .INVALID_PARAMETERS else .ok ()

/-- src/validator.ts, `validateOptions` (lines 22-50): sequences the
individual field validators in source order; the optional validators run
only when the field is supplied.  The result carries the duration-clamp
warning (if any) emitted by `validateDuration`. -/
def validateOptions (videoFile : Option VideoFile) (options : Video2GifOptions)
    (videoDuration : Option JSNum) : Except Video2GifErrorType (Option JSNum) :=
  match validateStartTime options.startTime videoDuration with
  | .error e => .error e
  | .ok _ =>
  match validateDuration options.duration options.startTime videoDuration with
  | .error e => .error e
  | .ok warning =>
  match (match options.fps with | some f => validateFps f | none => .ok ()) with
  | .error e => .error e
  | .ok _ =>
  match (match options.scale with | some s => validateScale s | none => .ok ()) with
  | .error e => .error e
  | .ok _ =>
  match (match options.onProgress with | some p => validateOnProgress p | none => .ok ()) with
  | .error e => .error e
  | .ok _ =>
  match validateVideoFile videoFile with
  | .error e => .error e
  | .ok _ => .ok warning

/-- JS Math.round over an exact rational: round half toward positive
infinity. -/
def jsRound (q : ℚ) : ℤ := ⌊q + 1 / 2⌋

/-- JS truncation toward zero of an exact rational. -/
def jsTrunc (q : ℚ) : ℤ := if 0 ≤ q then ⌊q⌋ else ⌈q⌉

/-- The JS remainder `q % 2` (sign of the dividend) over an exact rational. -/
def jsMod2 (q : ℚ) : ℚ := q - 2 * (jsTrunc (q / 2) : ℚ)

/-- An output {width, height} pair. -/
structure Dimensions where
  width : ℚ
  height : ℚ
deriving DecidableEq, Repr

/-- src/validator.ts, `calculateOutputDimensions` (lines 311-335).  Finite
JS numbers are modelled as exact rationals.  The `!targetWidth` guard is
true when the target is undefined or 0, which the `t ≤ 0` branch of the
`some` case covers together with `targetWidth <= 0`. -/
def calculateOutputDimensions (inputWidth inputHeight : ℚ) (targetWidth : Option ℚ) :
    Except String Dimensions :=
  match targetWidth with
  | none => .ok ⟨inputWidth, inputHeight⟩
  | some t =>
    if t ≤ 0 then .ok ⟨inputWidth, inputHeight⟩
    else if inputWidth ≤ 0 ∨ inputHeight ≤ 0 then .error "Invalid input dimensions"
    else
      let aspect : ℚ := inputHeight / inputWidth
      let outputHeight : ℚ := (jsRound (t * aspect) : ℚ)
      let evenWidth : ℚ := if jsMod2 t = 0 then t else t - 1
      let evenHeight : ℚ := if jsMod2 outputHeight = 0 then outputHeight else outputHeight - 1
      .ok ⟨max 2 evenWidth, max 2 evenHeight⟩

/-- src/ffmpeg-loader.ts, `FFmpegUtils.buildConversionCommand`
(lines 367-385): the numeric payload of the argv built for the engine
(`-ss startTime -t duration -vf fps=...,scale=width:height`). -/
structure ConversionCommand where
  startTime : JSNum
  duration : JSNum
  fps : JSNum
  width : ℚ
  height : ℚ
deriving DecidableEq, Repr

/-- src/ffmpeg-loader.ts, `FFmpegUtils.buildConversionCommand`. -/
def buildConversionCommand (startTime duration fps : JSNum) (width height : ℚ) :
    ConversionCommand :=
  ⟨startTime, duration, fps, width, height⟩

/-- src/converter.ts, `processVideo` (lines 128-167): the encode command is
built from `options.startTime`, `options.duration` and
`options.fps || DEFAULTS.FPS` unchanged; `dims` is the result of
`calculateOutputDimensions(videoInfo.width, videoInfo.height, options.scale)`
(lines 151 and 213-222), modelled separately above. -/
def processVideoCommand (options : Video2GifOptions) (dims : Dimensions) :
    ConversionCommand :=
  buildConversionCommand options.startTime options.duration
    (match options.fps with
     | some f => if jsTruthy f then f else .fin 10
     | none => .fin 10)
    dims.width dims.height

/-- The progress stages of src/types.ts (`ConversionProgress.stage`). -/
inductive Stage where
  | loading
  | analyzing
  | processing
  | finalizing
deriving DecidableEq, Repr

/-- Position of a stage in the documented order. -/
def stageIdx : Stage → ℕ
  | .loading => 0
  | .analyzing => 1
  | .processing => 2
  | .finalizing => 3

/-- One progress emission: the `{stage, percent}` pair constructed by
`reportProgress` (src/converter.ts lines 287-311). -/
structure ProgressEvent where
  stage : Stage
  percent : ℚ
deriving DecidableEq, Repr

/-- src/converter.ts line 300: `Math.min(100, Math.max(0, percent))`. -/
def reportedPercent (p : ℚ) : ℚ := min 100 (max 0 p)

/-- src/converter.ts line 239: `Math.ceil(duration * targetFps)`, as a
natural number (positive in every validated run). -/
def totalFramesNat (duration fps : ℚ) : ℕ := ⌈duration * fps⌉.toNat

/-- src/converter.ts line 262: the loop increment
`Math.max(1, Math.floor(totalFrames / 10))`. -/
def progressStep (totalFrames : ℕ) : ℕ := max 1 (totalFrames / 10)

/-- The frame indices visited by the progress loop of `executeWithProgress`
(src/converter.ts line 262): `for (i = 0; i <= totalFrames; i += step)`. -/
def loopFrames (totalFrames : ℕ) : List ℕ :=
  (List.range (totalFrames / progressStep totalFrames + 1)).map
    (fun k => k * progressStep totalFrames)

/-- src/converter.ts lines 244-255: the percent reported for one frame
count during the processing stage:
`reportProgress` with stage processing and percent `20 + Math.min(100, (i / totalFrames) * 80)`. -/
def processingPercent (totalFrames i : ℕ) : ℚ :=
  reportedPercent (20 + min 100 ((i : ℚ) / (totalFrames : ℚ) * 80))

/-- The full emission sequence of a successful `convert` run
(src/converter.ts lines 51-66 and 227-282): loading at 0, analyzing at 10,
processing at 20, the processing loop, then finalizing at 90. -/
def fullRunEmissions (totalFrames : ℕ) : List ProgressEvent :=
  [⟨.loading, reportedPercent 0⟩, ⟨.analyzing, reportedPercent 10⟩,
   ⟨.processing, reportedPercent 20⟩]
  ++ (loopFrames totalFrames).map
      (fun i => ⟨.processing, processingPercent totalFrames i⟩)
  ++ [⟨.finalizing, reportedPercent 90⟩]

/-- A value thrown inside the conversion pipeline: either an
already-classified `Video2GifError` (only its kind matters here) or a
native error. -/
inductive ThrownError where
  | v2g (t : Video2GifErrorType)
  | native
deriving DecidableEq, Repr

/-- src/errors.ts, `ErrorUtils.wrapError` (lines 202-227): an
already-classified error keeps its kind, anything else becomes UNKNOWN. -/
def wrapErrorType : ThrownError → Video2GifErrorType
  | .v2g t => t
  | .native => .UNKNOWN

/-- The mutable flags of a `VideoConverter` (src/converter.ts lines 29-32). -/
structure ConverterState where
  isCancelled : Bool
  timeoutArmed : Bool
deriving DecidableEq, Repr

/-- The converter state at the start of `convert` (lines 42-48): the
cancellation flag is reset and a timeout is armed. -/
def initialConverterState : ConverterState := ⟨false, true⟩

/-- src/converter.ts, `cancel` (lines 316-320): set the cancellation flag
and clear the timeout. -/
def cancelOp (_ : ConverterState) : ConverterState :=
  { isCancelled := true, timeoutArmed := false }

/-- src/converter.ts, the `setupTimeout` callback (lines 89-98): on firing
it calls `cancel()` and then throws a `TimeoutError`.  The throw happens
inside a `window.setTimeout` callback, so by the host semantics it
propagates to the event loop, never into the pending `convert()` promise:
the second component records the error that is lost there. -/
def timeoutFire (s : ConverterState) : ConverterState × ThrownError :=
  (cancelOp s, .v2g .TIMEOUT_EXCEEDED)

/-- src/converter.ts, the catch block of `convert` (lines 73-80): a failure
is surfaced as CANCELLED when the cancellation flag is set, otherwise the
proximate error is wrapped; a success returns the blob (modelled by its
id) with no cancellation check. -/
def convertResolve (s : ConverterState) (stepResult : Except ThrownError ℕ) :
    Except Video2GifErrorType ℕ :=
  match stepResult with
  | .ok blob => .ok blob
  | .error e => if s.isCancelled then .error .CANCELLED else .error (wrapErrorType e)

/-- src/types.ts `DEFAULTS.TIMEOUT`. -/
def DEFAULTS_TIMEOUT : ℕ := 300000

/-- The engine configuration record of src/types.ts (`FFmpegConfig`). -/
structure FFmpegConfig where
  baseURL : Option String
  multiThread : Option Bool
  timeout : Option ℕ
  memoryLimit : Option ℕ
deriving DecidableEq, Repr

/-- src/converter.ts line 47: `config.timeout || DEFAULTS.TIMEOUT`
(a supplied 0 is falsy and falls back to the default). -/
def armedTimeout (cfg : FFmpegConfig) : ℕ :=
  match cfg.timeout with
  | some t => if t ≠ 0 then t else DEFAULTS_TIMEOUT
  | none => DEFAULTS_TIMEOUT

/-- src/ffmpeg-loader.ts, `shouldUseMultiThreading` (lines 263-271), with
the loader field `isMultiThreadSupported` passed explicitly. -/
def shouldUseMultiThreading (isMultiThreadSupported : Bool) (requested : Option Bool) :
    Bool :=
  match requested with
  | some r => r && isMultiThreadSupported
  | none => isMultiThreadSupported

/-- src/ffmpeg-loader.ts line 281: the multi-thread asset bundle location. -/
def DEFAULT_MULTI_THREAD_LOCATION : String := "/node_modules/@ffmpeg/core-mt/dist/umd"

/-- src/ffmpeg-loader.ts line 285: the single-thread asset bundle location. -/
def DEFAULT_SINGLE_THREAD_LOCATION : String := "/node_modules/@ffmpeg/core/dist/umd"

/-- src/ffmpeg-loader.ts, `getDefaultBaseURL` (lines 276-286). -/
def getDefaultBaseURL (isMultiThreadSupported : Bool) (multiThread : Option Bool) :
    String :=
  if shouldUseMultiThreading isMultiThreadSupported multiThread then
    DEFAULT_MULTI_THREAD_LOCATION
  else DEFAULT_SINGLE_THREAD_LOCATION

/-- src/ffmpeg-loader.ts line 222:
`config.baseURL || this.getDefaultBaseURL(config.multiThread)` (an
explicit override is assumed nonempty, hence truthy). -/
def resolvedBaseURL (cfg : FFmpegConfig) (isMultiThreadSupported : Bool) : String :=
  match cfg.baseURL with
  | some u => u
  | none => getDefaultBaseURL isMultiThreadSupported cfg.multiThread

/-- src/ffmpeg-loader.ts line 223: the threading mode used for the engine
configuration built by `doLoadFFmpeg`. -/
def doLoadUseMultiThread (cfg : FFmpegConfig) (isMultiThreadSupported : Bool) : Bool :=
  shouldUseMultiThreading isMultiThreadSupported cfg.multiThread

/-- The kind and url payload of the `FFmpegLoadError` raised by the catch
block of `doLoadFFmpeg` (src/ffmpeg-loader.ts lines 250-257): the error is
built as `new FFmpegLoadError(message, config.baseURL, reason)` with the baseURL taken from the config override. -/
structure FFmpegLoadErrorData where
  type : Video2GifErrorType
  url : Option String
deriving DecidableEq, Repr

/-- The error produced by any failure inside `doLoadFFmpeg`. -/
def doLoadFFmpegError (cfg : FFmpegConfig) : FFmpegLoadErrorData :=
  { type := .FFMPEG_LOAD_FAILED, url := cfg.baseURL }

/-- The shared fields of the `FFmpegLoader` singleton
(src/ffmpeg-loader.ts lines 98-101): the cached engine instance and the
in-flight loading promise, each modelled by an id. -/
structure LoaderState where
  ffmpeg : Option ℕ
  loadingPromise : Option ℕ
deriving DecidableEq, Repr

/-- What one call to `loadFFmpeg` does before awaiting anything. -/
inductive LoadAction where
  | returnCached (engine : ℕ)
  | joinInflight (promise : ℕ)
  | startLoad (promise : ℕ)
deriving DecidableEq, Repr

/-- src/ffmpeg-loader.ts, the synchronous head of `loadFFmpeg`
(lines 189-201): return the cached instance if present, else join the
in-flight promise if present, else start a fresh load and record it as
in flight. -/
def loadFFmpegStep (s : LoaderState) (freshPromise : ℕ) : LoadAction × LoaderState :=
  match s.ffmpeg with
  | some e => (.returnCached e, s)
  | none =>
    match s.loadingPromise with
    | some p => (.joinInflight p, s)
    | none => (.startLoad freshPromise, { s with loadingPromise := some freshPromise })

/-- Whether an action starts a new underlying engine instantiation. -/
def startsLoad : LoadAction → Bool
  | .startLoad _ => true
  | _ => false

/-- src/ffmpeg-loader.ts lines 203-206: a resolved load caches the engine
(the in-flight marker is left in place, which is harmless because the
cache is checked first). -/
def settleLoadSuccess (s : LoaderState) (engine : ℕ) : LoaderState :=
  { s with ffmpeg := some engine }

/-- src/ffmpeg-loader.ts lines 207-210: a failed load clears the in-flight
marker before rethrowing. -/
def settleLoadFailure (s : LoaderState) : LoaderState :=
  { s with loadingPromise := none }

/-- The percent values of a full successful run, in emission order. -/
def fullRunPercents (totalFrames : ℕ) : List ℚ :=
  (fullRunEmissions totalFrames).map ProgressEvent.percent

/-- Modelled from the spec wording of claim C6: the value is a finite
non-negative number (NaN and the infinities are not). -/
def specFiniteNonNegative : JSNum → Bool
  | .fin q => decide (0 ≤ q)
  | _ => false

/-- Modelled from the spec wording of claim C7: decrement an odd integer
by one. -/
def specEvenize (n : ℤ) : ℤ := if n % 2 = 0 then n else n - 1

/-- The clamp warning computed by `validateDuration` (src/validator.ts
lines 88-96), as a standalone function of its inputs. -/
def durationWarning (du st : JSNum) (d : Option JSNum) : Option JSNum :=
  match d with
  | some dv =>
      if jsTruthy dv && jsGt (jsAdd st du) dv
      then some (jsMax (.fin (1/10)) (jsSub dv st)) else none
  | none => none

/-- The amended characterization of when `validateOptions` rejects with
INVALID_PARAMETERS: the conditions of the spec read with IEEE-754
comparison semantics (comparisons with NaN are false) and JS truthiness of
the known duration. -/
def amendedInvalidCond (videoFile : Option VideoFile) (o : Video2GifOptions)
    (d : Option JSNum) : Bool :=
  jsLt o.startTime (.fin 0)
  || (match d with | some dv => jsTruthy dv && jsGe o.startTime dv | none => false)
  || jsLe o.duration (.fin 0)
  || (match o.fps with | some f => jsLt f (.fin 1) || jsGt f (.fin 30) | none => false)
  || (match o.scale with | some sc => jsLe sc (.fin 0) || !jsIsInteger sc | none => false)
  || (match o.onProgress with | some p => !p | none => false)
  || (match videoFile with | none => true | some f => decide (f.size > maxFileSize))

/-- C1: with a known source duration D = 10, startTime = 5 and duration =
60, validation raises no exception and the warning channel carries the
clamped value max(0.1, D - startTime) = 5, but the encode command built by
processVideo still carries the original duration 60: the clamped duration
is never the one used by the conversion. -/
theorem C1_clamp_warned_but_never_applied :
    validateOptions (some ⟨0⟩)
      { startTime := .fin 5, duration := .fin 60, fps := none, scale := none,
        onProgress := none }
      (some (.fin 10)) = .ok (some (.fin 5)) ∧
    (processVideoCommand
      { startTime := .fin 5, duration := .fin 60, fps := none, scale := none,
        onProgress := none }
      ⟨640, 360⟩).duration = .fin 60 ∧
    JSNum.fin 60 ≠ .fin (max (1 / 10) (10 - 5)) := by
  refine ⟨?_, rfl, ?_⟩
  · norm_num [validateOptions, validateStartTime, validateDuration, validateVideoFile,
      jsLe, jsLt, jsTruthy, jsGt, jsGe, jsAdd, jsMax, jsSub, jsNeg, maxFileSize]
  · norm_num

/-- C2 counterexample: on a host whose capability snapshot reports
multi-threading unsupported, an explicit `multiThread: true` override does
not win: the resolved decision is false and the single-thread bundle is
selected, contradicting the claim that an explicit boolean override
decides regardless of the detected capabilities. -/
theorem C2_counterexample :
    shouldUseMultiThreading false (some true) = false ∧
    getDefaultBaseURL false (some true) = DEFAULT_SINGLE_THREAD_LOCATION :=
  ⟨rfl, rfl⟩

/-- C2 amended: an explicit false override forces false regardless of
capabilities; an explicit true override and an undefined override both
resolve to the snapshot flag (true cannot force threading on an
unsupported host); the default asset bundle follows that same decision. -/
theorem C2_amended_precedence (s : Bool) (r : Option Bool) :
    shouldUseMultiThreading s (some false) = false ∧
    shouldUseMultiThreading s (some true) = s ∧
    shouldUseMultiThreading s none = s ∧
    getDefaultBaseURL s r =
      (if shouldUseMultiThreading s r then DEFAULT_MULTI_THREAD_LOCATION
       else DEFAULT_SINGLE_THREAD_LOCATION) := by
  refine ⟨by simp [shouldUseMultiThreading], by simp [shouldUseMultiThreading], rfl, rfl⟩

/-- C4: the armed timeout defaults to 300000 ms and is overridable, and
when it fires it does mark the request cancelled, but the TimeoutError it
throws is lost to the host event loop (second component of
`timeoutFire`): every subsequent failure path surfaces CANCELLED, a
success path still returns the blob, and TIMEOUT_EXCEEDED never reaches
the caller. -/
theorem C4_timeout_never_surfaces_timeout_exceeded :
    armedTimeout ⟨none, none, none, none⟩ = 300000 ∧
    armedTimeout ⟨none, none, some 1, none⟩ = 1 ∧
    (timeoutFire initialConverterState).1.isCancelled = true ∧
    (timeoutFire initialConverterState).2 = .v2g .TIMEOUT_EXCEEDED ∧
    (∀ e, convertResolve (timeoutFire initialConverterState).1 (.error e) =
      .error .CANCELLED) ∧
    (∀ b, convertResolve (timeoutFire initialConverterState).1 (.ok b) = .ok b) ∧
    Video2GifErrorType.CANCELLED ≠ .TIMEOUT_EXCEEDED := by
  refine ⟨rfl, rfl, rfl, rfl, fun e => rfl, fun b => rfl, by simp⟩

/-- C5: once `cancel()` has run, every failure path of `convert` resolves
to an error of kind CANCELLED, whatever the proximate error thrown by the
engine call was. -/
theorem C5_cancel_takes_reporting_priority (s : ConverterState) (e : ThrownError) :
    convertResolve (cancelOp s) (.error e) = .error .CANCELLED := rfl

/-- C8: `loadFFmpeg` returns a cached engine without starting a load,
joins an in-flight promise without starting a load, and two concurrent
calls on a cold loader perform exactly one underlying instantiation (the
second call joins the promise recorded by the first). -/
theorem C8_load_coalescing (e p fresh fresh₂ : ℕ) (inflight : Option ℕ) :
    loadFFmpegStep ⟨some e, inflight⟩ fresh = (.returnCached e, ⟨some e, inflight⟩) ∧
    loadFFmpegStep ⟨none, some p⟩ fresh = (.joinInflight p, ⟨none, some p⟩) ∧
    loadFFmpegStep ⟨none, none⟩ fresh = (.startLoad fresh, ⟨none, some fresh⟩) ∧
    ((if startsLoad (loadFFmpegStep ⟨none, none⟩ fresh).1 then 1 else 0) +
      (if startsLoad (loadFFmpegStep (loadFFmpegStep ⟨none, none⟩ fresh).2 fresh₂).1
       then 1 else 0) = 1) ∧
    (loadFFmpegStep (loadFFmpegStep ⟨none, none⟩ fresh).2 fresh₂).1 =
      .joinInflight fresh := by
  refine ⟨rfl, rfl, rfl, ?_, rfl⟩
  simp [loadFFmpegStep, startsLoad]

/-- C9 counterexample: when no explicit baseURL override is configured,
the attempted asset location is the default single-thread bundle, but the
FFmpegLoadError raised on failure carries `config.baseURL`, which is
undefined: the error does not carry the attempted location. -/
theorem C9_counterexample :
    (doLoadFFmpegError ⟨none, none, none, none⟩).url = none ∧
    resolvedBaseURL ⟨none, none, none, none⟩ false = DEFAULT_SINGLE_THREAD_LOCATION ∧
    (doLoadFFmpegError ⟨none, none, none, none⟩).url ≠
      some (resolvedBaseURL ⟨none, none, none, none⟩ false) := by
  refine ⟨rfl, rfl, by simp [doLoadFFmpegError]⟩

/-- C9 amended: every engine-load failure clears the in-flight marker, so
no failure path leaves the loader in a load-in-progress state, and the
call fails with a FFMPEG_LOAD_FAILED error carrying the caller-supplied
baseURL override (undefined when the default location was used). -/
theorem C9_amended_failure_cleanup (s : LoaderState) (cfg : FFmpegConfig) :
    (settleLoadFailure s).loadingPromise = none ∧
    (doLoadFFmpegError cfg).type = .FFMPEG_LOAD_FAILED ∧
    (doLoadFFmpegError cfg).url = cfg.baseURL :=
  ⟨rfl, rfl, rfl⟩

/-- C10: on a host whose capability snapshot reports multi-threading
unsupported, the threading decision is false for every override value
(including an explicit true), the default asset bundle is the
single-thread one, and the engine configuration built by `doLoadFFmpeg`
never enables multi-threading. -/
theorem C10_unsupported_host_never_multithreads (r : Option Bool) (cfg : FFmpegConfig) :
    shouldUseMultiThreading false r = false ∧
    getDefaultBaseURL false r = DEFAULT_SINGLE_THREAD_LOCATION ∧
    doLoadUseMultiThread cfg false = false := by
  have h : ∀ r' : Option Bool, shouldUseMultiThreading false r' = false := by
    intro r'
    cases r' <;> simp [shouldUseMultiThreading]
  refine ⟨h r, ?_, h cfg.multiThread⟩
  simp [getDefaultBaseURL, h r]

/-- C6 counterexample: a NaN startTime is not a finite non-negative
number, so the claim requires an INVALID_PARAMETERS rejection, but
validation passes it: every IEEE-754 comparison with NaN is false, so
none of the guards fires. -/
theorem C6_counterexample :
    validateOptions (some ⟨100⟩)
      { startTime := .nan, duration := .fin 5, fps := none, scale := none,
        onProgress := none }
      (some (.fin 10)) = .ok none ∧
    specFiniteNonNegative .nan = false :=
  ⟨rfl, rfl⟩

theorem jsMod2_intCast (n : ℤ) (hn : 0 ≤ n) : jsMod2 (n : ℚ) = ((n % 2 : ℤ) : ℚ) := by
  unfold jsMod2 jsTrunc
  have h2 : (0:ℚ) ≤ (n:ℚ) / 2 := by
    apply div_nonneg _ (by norm_num)
    exact_mod_cast hn
  rw [if_pos h2]
  have hfl : ⌊(n:ℚ) / 2⌋ = n / 2 := by
    have h := Rat.floor_intCast_div_natCast n 2
    norm_num at h
    exact h
  rw [hfl, Int.emod_def]
  push_cast
  ring

theorem evenize_cast (n : ℤ) (hn : 0 ≤ n) :
    (if jsMod2 (n:ℚ) = 0 then (n:ℚ) else (n:ℚ) - 1) = ((specEvenize n : ℤ) : ℚ) := by
  rw [jsMod2_intCast n hn]
  unfold specEvenize
  simp only [Int.cast_eq_zero]
  split_ifs with h
  · rfl
  · push_cast
    ring

/-- C7: with no target width the source dimensions pass through unchanged;
with a positive integer target width the result is the target width and
round(targetWidth x sourceHeight / sourceWidth), each decremented by one
if odd and floored at 2; the concrete instance (1920, 1080, 640) yields
{640, 360}; and the only failure condition is a non-positive source
dimension. -/
theorem C7_calculateOutputDimensions (w h : ℚ) (t : ℤ)
    (hw : 0 < w) (hh : 0 < h) (ht : 0 < t) :
    calculateOutputDimensions w h none = .ok ⟨w, h⟩ ∧
    calculateOutputDimensions w h (some (t : ℚ)) =
      .ok ⟨((max 2 (specEvenize t) : ℤ) : ℚ),
           ((max 2 (specEvenize (jsRound ((t : ℚ) * h / w))) : ℤ) : ℚ)⟩ ∧
    calculateOutputDimensions 1920 1080 (some 640) = .ok ⟨640, 360⟩ ∧
    (∀ w' h' : ℚ, ∀ tw : Option ℚ, ∀ msg,
      calculateOutputDimensions w' h' tw = .error msg → w' ≤ 0 ∨ h' ≤ 0) := by
  refine ⟨rfl, ?_, ?_, ?_⟩
  · have htq : (0:ℚ) < (t:ℚ) := by exact_mod_cast ht
    have hR : 0 ≤ jsRound ((t:ℚ) * (h / w)) := by
      unfold jsRound
      rw [Int.le_floor]
      have : (0:ℚ) ≤ (t:ℚ) * (h / w) := by positivity
      push_cast
      linarith
    simp only [calculateOutputDimensions]
    rw [if_neg (not_le.mpr htq), if_neg (by push_neg; exact ⟨hw, hh⟩)]
    have hW := evenize_cast t (le_of_lt ht)
    have hH := evenize_cast (jsRound ((t:ℚ) * (h / w))) hR
    have hmd : (t:ℚ) * (h / w) = (t:ℚ) * h / w := by ring
    rw [Except.ok.injEq, Dimensions.mk.injEq]
    constructor
    · rw [hW, Int.cast_max]
      norm_num
    · rw [← hmd, hH, Int.cast_max]
      norm_num
  · norm_num [calculateOutputDimensions, jsRound, jsMod2, jsTrunc]
  · intro w' h' tw msg heq
    cases tw with
    | none => simp [calculateOutputDimensions] at heq
    | some t' =>
      simp only [calculateOutputDimensions] at heq
      split_ifs at heq with h1 h2
      exact h2

/-- C7 witness: the theorem instantiated at source 1920 x 1080 with target
width 640. -/
theorem C7_calculateOutputDimensions_witness :
    (0:ℚ) < 1920 ∧ (0:ℚ) < 1080 ∧ (0:ℤ) < 640 ∧
    (calculateOutputDimensions 1920 1080 none = .ok ⟨1920, 1080⟩ ∧
     calculateOutputDimensions 1920 1080 (some ((640:ℤ) : ℚ)) =
       .ok ⟨((max 2 (specEvenize 640) : ℤ) : ℚ),
            ((max 2 (specEvenize (jsRound (((640:ℤ) : ℚ) * 1080 / 1920))) : ℤ) : ℚ)⟩ ∧
     calculateOutputDimensions 1920 1080 (some 640) = .ok ⟨640, 360⟩ ∧
     (∀ w' h' : ℚ, ∀ tw : Option ℚ, ∀ msg,
        calculateOutputDimensions w' h' tw = .error msg → w' ≤ 0 ∨ h' ≤ 0)) :=
  ⟨by decide, by decide, by decide,
   C7_calculateOutputDimensions 1920 1080 640 (by decide) (by decide) (by decide)⟩

theorem processingPercent_mono (tf : ℕ) {i j : ℕ} (hij : i ≤ j) :
    processingPercent tf i ≤ processingPercent tf j := by
  unfold processingPercent reportedPercent
  have hdiv : (i:ℚ) / (tf:ℚ) ≤ (j:ℚ) / (tf:ℚ) := by
    rcases Nat.eq_zero_or_pos tf with h | h
    · simp [h]
    · have htf : (0:ℚ) < (tf:ℚ) := by exact_mod_cast h
      exact (div_le_div_iff_of_pos_right htf).mpr (by exact_mod_cast hij)
  gcongr

theorem fullRun_stages (tf : ℕ) :
    (fullRunEmissions tf).map ProgressEvent.stage =
      .loading :: .analyzing :: .processing ::
        (List.replicate (loopFrames tf).length Stage.processing ++ [.finalizing]) := by
  simp [fullRunEmissions, Function.comp_def, List.map_const']

theorem chainRep (n : ℕ) :
    List.Chain' (fun a b => stageIdx a ≤ stageIdx b)
      (Stage.processing :: (List.replicate n .processing ++ [.finalizing])) := by
  induction n with
  | zero => simp [List.chain'_cons, stageIdx]
  | succ n ih =>
      rw [List.replicate_succ, List.cons_append]
      exact List.chain'_cons.mpr ⟨le_refl _, ih⟩

theorem fullRun_percents (tf : ℕ) :
    fullRunPercents tf =
      ([0, 10, 20] ++ (loopFrames tf).map (processingPercent tf)) ++ [90] := by
  simp [fullRunPercents, fullRunEmissions, reportedPercent]
  norm_num

theorem fullRun_dropLast (tf : ℕ) :
    (fullRunPercents tf).dropLast =
      [0, 10, 20] ++ (loopFrames tf).map (processingPercent tf) := by
  rw [fullRun_percents, List.dropLast_concat]

theorem processingPercent_zero (tf : ℕ) : processingPercent tf 0 = 20 := by
  norm_num [processingPercent, reportedPercent]

theorem chain_dropLast (tf : ℕ) :
    List.Chain' (· ≤ ·) ([0, 10, 20] ++ (loopFrames tf).map (processingPercent tf)) := by
  apply List.Chain'.append
  · norm_num [List.chain'_cons]
  · unfold loopFrames
    rw [List.map_map, List.chain'_map, List.chain'_range_succ]
    intro k _
    exact processingPercent_mono tf (Nat.mul_le_mul_right _ (Nat.le_succ k))
  · intro x hx y hy
    simp only [List.getLast?] at hx
    unfold loopFrames at hy
    rw [List.range_succ_eq_map] at hy
    simp at hx hy
    rw [← hx, ← hy, processingPercent_zero]

theorem eight_mul_last (tf : ℕ) (h : 1 ≤ tf) :
    7 * tf < 8 * (tf / progressStep tf * progressStep tf) := by
  unfold progressStep
  rcases lt_or_le tf 10 with h10 | h10
  · have h0 : tf / 10 = 0 := Nat.div_eq_of_lt h10
    simp [h0]
    omega
  · have hd : 1 ≤ tf / 10 := (Nat.one_le_div_iff (by norm_num)).mpr h10
    rw [max_eq_right hd]
    have h1 : tf / (tf / 10) * (tf / 10) ≤ tf := Nat.div_mul_le_self tf (tf / 10)
    have h2 : tf < tf / (tf / 10) * (tf / 10) + tf / 10 := by
      have hmod : tf % (tf / 10) < tf / 10 := Nat.mod_lt _ (by omega)
      have hdm : tf / 10 * (tf / (tf / 10)) + tf % (tf / 10) = tf :=
        Nat.div_add_mod tf (tf / 10)
      have hcomm : tf / 10 * (tf / (tf / 10)) = tf / (tf / 10) * (tf / 10) :=
        Nat.mul_comm _ _
      omega
    generalize hk : tf / (tf / 10) * (tf / 10) = k at h1 h2 ⊢
    omega

theorem last_percent_gt (tf : ℕ) (h : 1 ≤ tf) :
    (90:ℚ) < processingPercent tf (tf / progressStep tf * progressStep tf) := by
  have h8 := eight_mul_last tf h
  unfold processingPercent reportedPercent
  set l := tf / progressStep tf * progressStep tf with hl
  have htf : (0:ℚ) < (tf:ℚ) := by exact_mod_cast h
  have hx : (70:ℚ) < (l:ℚ) / (tf:ℚ) * 80 := by
    rw [div_mul_eq_mul_div, lt_div_iff₀ htf]
    have h8q : 7 * (tf:ℚ) < 8 * (l:ℚ) := by exact_mod_cast h8
    nlinarith
  have hmin : (70:ℚ) < min 100 ((l:ℚ) / (tf:ℚ) * 80) := lt_min (by norm_num) hx
  have hv : (90:ℚ) < 20 + min 100 ((l:ℚ) / (tf:ℚ) * 80) := by linarith
  exact lt_min (by norm_num) (lt_of_lt_of_le hv (le_max_right 0 _))

theorem not_chain_full (tf : ℕ) (h : 1 ≤ tf) :
    ¬ List.Chain' (· ≤ ·) (fullRunPercents tf) := by
  intro hch
  rw [fullRun_percents] at hch
  have hlf : (loopFrames tf).map (processingPercent tf)
      = ((List.range (tf / progressStep tf)).map
          fun k => processingPercent tf (k * progressStep tf))
        ++ [processingPercent tf (tf / progressStep tf * progressStep tf)] := by
    unfold loopFrames
    rw [List.range_succ, List.map_append, List.map_append, List.map_map]
    simp [Function.comp_def]
  rw [hlf] at hch
  have hglue := (List.chain'_append.mp hch).2.2
  have hlast : ([0, 10, 20] ++
      (((List.range (tf / progressStep tf)).map
          fun k => processingPercent tf (k * progressStep tf))
        ++ [processingPercent tf (tf / progressStep tf * progressStep tf)])).getLast?
      = some (processingPercent tf (tf / progressStep tf * progressStep tf)) := by
    rw [← List.append_assoc, List.getLast?_concat]
  have h90 := hglue _ (by rw [hlast]; rfl) 90 (by simp)
  have := last_percent_gt tf h
  linarith

/-- C3 counterexample: in the full successful run with duration 1 s and
fps 1 (one frame), the emitted percent sequence is 0, 10, 20, 20, 100, 90:
the final finalizing emission at 90 regresses below the last processing
emission at 100, so the percent sequence is not non-decreasing. -/
theorem C3_counterexample_percent_regresses :
    fullRunPercents (totalFramesNat 1 1) = [0, 10, 20, 20, 100, 90] ∧
    ¬ List.Chain' (· ≤ ·) (fullRunPercents (totalFramesNat 1 1)) := by
  have h : fullRunPercents (totalFramesNat 1 1) = [0, 10, 20, 20, 100, 90] := by
    norm_num [fullRunPercents, fullRunEmissions, loopFrames, progressStep,
      processingPercent, reportedPercent, totalFramesNat, List.range_succ]
  refine ⟨h, ?_⟩
  rw [h]
  norm_num [List.chain'_cons]

/-- C3 amended: across every full successful run the stage sequence
follows the order loading, analyzing, processing, finalizing with no stage
skipped, and the percent sequence is non-decreasing up to and including
the processing stage, but the final finalizing emission at percent 90 is
always below the last processing emission (which always exceeds 90), so
the full percent sequence is never non-decreasing. -/
theorem C3_amended_progress (duration fps : ℚ) (hd : 0 < duration) (hf : 1 ≤ fps) :
    List.Chain' (fun a b => stageIdx a ≤ stageIdx b)
      ((fullRunEmissions (totalFramesNat duration fps)).map ProgressEvent.stage) ∧
    (∀ s : Stage,
      s ∈ (fullRunEmissions (totalFramesNat duration fps)).map ProgressEvent.stage) ∧
    List.Chain' (· ≤ ·) ((fullRunPercents (totalFramesNat duration fps)).dropLast) ∧
    ¬ List.Chain' (· ≤ ·) (fullRunPercents (totalFramesNat duration fps)) := by
  have htf : 1 ≤ totalFramesNat duration fps := by
    unfold totalFramesNat
    have hpos : (0:ℚ) < duration * fps := mul_pos hd (lt_of_lt_of_le one_pos hf)
    have hc : 0 < ⌈duration * fps⌉ := Int.ceil_pos.mpr hpos
    omega
  refine ⟨?_, ?_, ?_, not_chain_full _ htf⟩
  · rw [fullRun_stages]
    exact List.chain'_cons.mpr ⟨by norm_num [stageIdx],
      List.chain'_cons.mpr ⟨by norm_num [stageIdx], chainRep _⟩⟩
  · intro s
    rw [fullRun_stages]
    cases s <;> simp
  · rw [fullRun_dropLast]
    exact chain_dropLast _

/-- C3 witness: the amended theorem instantiated at duration 1 s, fps 1. -/
theorem C3_amended_progress_witness :
    (0:ℚ) < 1 ∧ (1:ℚ) ≤ 1 ∧
    (List.Chain' (fun a b => stageIdx a ≤ stageIdx b)
      ((fullRunEmissions (totalFramesNat 1 1)).map ProgressEvent.stage) ∧
     (∀ s : Stage, s ∈ (fullRunEmissions (totalFramesNat 1 1)).map ProgressEvent.stage) ∧
     List.Chain' (· ≤ ·) ((fullRunPercents (totalFramesNat 1 1)).dropLast) ∧
     ¬ List.Chain' (· ≤ ·) (fullRunPercents (totalFramesNat 1 1))) :=
  ⟨by decide, by decide, C3_amended_progress 1 1 (by decide) (by decide)⟩

theorem vst_eq (st : JSNum) (d : Option JSNum) :
    validateStartTime st d =
      (if (jsLt st (.fin 0)
           || (match d with | some dv => jsTruthy dv && jsGe st dv | none => false))
       then .error .INVALID_PARAMETERS else .ok ()) := by
  unfold validateStartTime
  cases d with
  | none => cases hlt : jsLt st (.fin 0) <;> simp [hlt]
  | some dv =>
      cases hlt : jsLt st (.fin 0) <;> cases hc : jsTruthy dv && jsGe st dv <;>
        simp [hlt, hc]

theorem vdu_eq (du st : JSNum) (d : Option JSNum) :
    validateDuration du st d =
      (if jsLe du (.fin 0) then .error .INVALID_PARAMETERS
       else .ok (durationWarning du st d)) := by
  unfold validateDuration durationWarning
  cases d with
  | none => cases hle : jsLe du (.fin 0) <;> simp [hle]
  | some dv =>
      cases hle : jsLe du (.fin 0) <;>
        cases hc : jsTruthy dv && jsGt (jsAdd st du) dv <;> simp [hle, hc]

theorem optFps_eq (fps : Option JSNum) :
    (match fps with | some f => validateFps f | none => .ok ()) =
      (if (match fps with | some f => jsLt f (.fin 1) || jsGt f (.fin 30) | none => false)
       then (.error .INVALID_PARAMETERS : Except Video2GifErrorType Unit) else .ok ()) := by
  cases fps with
  | none => rfl
  | some f =>
      unfold validateFps
      cases hc : jsLt f (.fin 1) || jsGt f (.fin 30) <;> simp [hc]

theorem optScale_eq (sc : Option JSNum) :
    (match sc with | some s => validateScale s | none => .ok ()) =
      (if (match sc with | some s => jsLe s (.fin 0) || !jsIsInteger s | none => false)
       then (.error .INVALID_PARAMETERS : Except Video2GifErrorType Unit) else .ok ()) := by
  cases sc with
  | none => rfl
  | some s =>
      unfold validateScale
      cases h1 : jsLe s (.fin 0) <;> cases h2 : jsIsInteger s <;> simp [h1, h2]

theorem optOnProgress_eq (op : Option Bool) :
    (match op with | some p => validateOnProgress p | none => .ok ()) =
      (if (match op with | some p => !p | none => false)
       then (.error .INVALID_PARAMETERS : Except Video2GifErrorType Unit) else .ok ()) := by
  cases op with
  | none => rfl
  | some p => cases p <;> rfl

theorem vvf_eq (vf : Option VideoFile) :
    validateVideoFile vf =
      (if (match vf with | none => true | some f => decide (f.size > maxFileSize))
       then .error .INVALID_PARAMETERS else .ok ()) := by
  cases vf with
  | none => rfl
  | some f =>
      unfold validateVideoFile
      by_cases h : f.size > maxFileSize <;> simp [h]

set_option maxHeartbeats 800000 in
theorem validateOptions_eq (vf : Option VideoFile) (o : Video2GifOptions)
    (d : Option JSNum) :
    validateOptions vf o d =
      (if amendedInvalidCond vf o d then .error .INVALID_PARAMETERS
       else .ok (durationWarning o.duration o.startTime d)) := by
  unfold validateOptions amendedInvalidCond
  rw [vst_eq, vdu_eq, optFps_eq, optScale_eq, optOnProgress_eq, vvf_eq]
  split_ifs with h1 h2 h3 h4 h5 h6 <;> simp_all

/-- C6 amended: `validateOptions` throws a Video2GifError of kind
INVALID_PARAMETERS if and only if, reading every numeric comparison with
IEEE-754 semantics (any comparison with NaN is false, so NaN startTime,
duration or fps values pass): startTime < 0; or the known duration is
truthy (supplied, nonzero and not NaN) and startTime is at least it;
or duration is at most 0; or fps is supplied with fps < 1 or fps > 30;
or scale is supplied and is at most 0 or not an integer; or onProgress is
supplied and is not callable; or the payload is absent or exceeds the
1 GiB ceiling.  Otherwise it succeeds, returning the clamp warning. -/
theorem C6_amended_validateOptions_iff (vf : Option VideoFile) (o : Video2GifOptions)
    (d : Option JSNum) :
    (validateOptions vf o d = .error .INVALID_PARAMETERS ↔
      amendedInvalidCond vf o d = true) ∧
    ((∃ warn, validateOptions vf o d = .ok warn) ↔
      amendedInvalidCond vf o d = false) := by
  constructor
  · rw [validateOptions_eq]
    cases h : amendedInvalidCond vf o d <;> simp [h]
  · rw [validateOptions_eq]
    cases h : amendedInvalidCond vf o d <;> simp [h]

end Video2Gif
